import Mathlib

/-!
Verification of the operator dispatch and execution substrate of the Dragon
deep-learning framework, as implemented in `Dragon/include/core/operator.h`.

The C++ source is shallowly embedded: the operator's resolved input/output
tensor lists, its argument map and its `allow_run` flag become fields of a
Lean structure; the side-effecting lifecycle calls of `Run()` become an
explicit event trace; fallible macros (`TENSOR_FILL`) return `Except`.
Collaborators that the header only declares (the workspace, tensors,
fillers, the argument accessors) are modelled from the specification, each
marked `Modelled from the spec:` in its doc comment.
-/

set_option linter.unusedVariables false

/-- A tensor as consumed by the operator core: its `name`, its element
count `count`, its shape `dims`, and its element data (modelled over `Int`).
The workspace owns tensors; operators hold borrowed handles. -/
structure Tensor where
  name : String
  count : Nat
  dims : List Nat
  data : List Int
deriving DecidableEq

/-- An argument of an operator descriptor.  The claims only exercise the
repeated-integer slot (used by `"mpi_rank"`), so the model carries the
argument's `name` and its repeated integer values `ints`. -/
structure Argument where
  name : String
  ints : List Int
deriving DecidableEq

/-- The observable lifecycle actions performed by `Operator<Context>::Run()`
and its helpers: activating the device context (`ctx_.SwitchToDevice()`),
the `ShareBeforeRun` / `RunOnDevice` / `ClearAfterRun` hooks, a tensor's
migration request (`tensor.SwitchToDevice()`, tagged with the tensor's
name), and the final `ctx_.FinishDeviceCompution()` barrier. -/
inductive Event where
  | switchToDevice
  | shareBeforeRun
  | tensorSwitch (name : String)
  | runOnDevice
  | clearAfterRun
  | finishDeviceCompution
deriving DecidableEq

/-- The state of a constructed operator that the lifecycle code reads:
`op_def_.debug_mode()`, the resolved `inputs_` and `outputs_` vectors, and
the `allow_run_` flag computed once at construction. -/
structure Op where
  debug_mode : Bool
  inputs : List Tensor
  outputs : List Tensor
  allow_run : Bool
deriving DecidableEq

/-- `OperatorBase::input(int idx)`: `CHECK_LT(idx, size)`,
`CHECK_GE(idx, -size)` (a failed CHECK is fatal, modelled as `none`);
non-negative `idx` reads `inputs_[idx]`, negative `idx` reads
`inputs_[idx + inputs_.size()]`. -/
def Op.input (op : Op) (idx : Int) : Option Tensor :=
  if idx < (op.inputs.length : Int) ∧ -(op.inputs.length : Int) ≤ idx then
    if 0 ≤ idx then op.inputs[idx.toNat]?
    else op.inputs[(idx + op.inputs.length).toNat]?
  else none

/-- `OperatorBase::output(int idx)`: same bidirectional bounds-checked
lookup as `input`, over `outputs_`. -/
def Op.output (op : Op) (idx : Int) : Option Tensor :=
  if idx < (op.outputs.length : Int) ∧ -(op.outputs.length : Int) ≤ idx then
    if 0 ≤ idx then op.outputs[idx.toNat]?
    else op.outputs[(idx + op.outputs.length).toNat]?
  else none

lemma bidir_isSome_iff (l : List Tensor) (idx : Int)
    (f : Int → Option Tensor)
    (hf : f = fun i => if i < (l.length : Int) ∧ -(l.length : Int) ≤ i then
      if 0 ≤ i then l[i.toNat]? else l[(i + l.length).toNat]? else none) :
    (f idx).isSome = true ↔ -(l.length : Int) ≤ idx ∧ idx < (l.length : Int) := by
  subst hf
  simp only []
  constructor
  · intro h
    by_contra hc
    rw [if_neg] at h
    · simp at h
    · intro ⟨h1, h2⟩; exact hc ⟨h2, h1⟩
  · intro ⟨h1, h2⟩
    rw [if_pos ⟨h2, h1⟩]
    by_cases h0 : 0 ≤ idx
    · rw [if_pos h0]
      have : idx.toNat < l.length := by omega
      simp [List.getElem?_eq_getElem this]
    · rw [if_neg h0]
      have : (idx + l.length).toNat < l.length := by omega
      simp [List.getElem?_eq_getElem this]

lemma bidir_neg_eq (l : List Tensor) (idx : Int)
    (f : Int → Option Tensor)
    (hf : f = fun i => if i < (l.length : Int) ∧ -(l.length : Int) ≤ i then
      if 0 ≤ i then l[i.toNat]? else l[(i + l.length).toNat]? else none)
    (hneg : idx < 0) (hlo : -(l.length : Int) ≤ idx) :
    f idx = f (idx + l.length) := by
  subst hf
  simp only []
  have hin : idx < (l.length : Int) ∧ -(l.length : Int) ≤ idx := by
    constructor <;> omega
  have hin' : idx + (l.length : Int) < (l.length : Int) ∧
      -(l.length : Int) ≤ idx + (l.length : Int) := by
    constructor <;> omega
  rw [if_pos hin, if_pos hin', if_neg (by omega), if_pos (by omega)]

/-- C4. `input(i)` / `output(i)` succeed exactly when `i ∈ [-n, n)` where
`n` is the respective arity, are fatal (return `none`) outside that range,
and for negative `i` in range return the same tensor as at `i + n`. -/
theorem input_output_bidirectional (op : Op) (idx : Int) :
    ((op.input idx).isSome = true ↔
      -(op.inputs.length : Int) ≤ idx ∧ idx < (op.inputs.length : Int)) ∧
    ((op.output idx).isSome = true ↔
      -(op.outputs.length : Int) ≤ idx ∧ idx < (op.outputs.length : Int)) ∧
    (idx < 0 → -(op.inputs.length : Int) ≤ idx →
      op.input idx = op.input (idx + op.inputs.length)) ∧
    (idx < 0 → -(op.outputs.length : Int) ≤ idx →
      op.output idx = op.output (idx + op.outputs.length)) := by
  refine ⟨?_, ?_, ?_, ?_⟩
  · exact bidir_isSome_iff op.inputs idx (fun i => op.input i) (by
      funext i; rfl)
  · exact bidir_isSome_iff op.outputs idx (fun i => op.output i) (by
      funext i; rfl)
  · intro h1 h2
    exact bidir_neg_eq op.inputs idx (fun i => op.input i) (by funext i; rfl) h1 h2
  · intro h1 h2
    exact bidir_neg_eq op.outputs idx (fun i => op.output i) (by funext i; rfl) h1 h2

/-- A concrete operator with two inputs and one output, used to witness the
indexing theorem on explicit data. -/
def opAdd : Op :=
  { debug_mode := false,
    inputs := [⟨"a", 0, [], []⟩, ⟨"b", 0, [], []⟩],
    outputs := [⟨"c", 0, [], []⟩],
    allow_run := true }

/-- Witness for C4 at a concrete operator: on `opAdd` (two inputs),
`input (-1)` addresses from the tail, equal to `input (-1 + 2)`. -/
theorem input_output_bidirectional_witness :
    (-1 : Int) < 0 ∧ -(opAdd.inputs.length : Int) ≤ (-1 : Int) ∧
    opAdd.input (-1) = opAdd.input ((-1) + opAdd.inputs.length) :=
  ⟨by decide, by decide,
   (input_output_bidirectional opAdd (-1)).2.2.1 (by decide) (by decide)⟩

/-- Modelled from the spec: `OperatorBase::GetRepeatedArg<int>` (its body is
declared in the header but implemented outside this excerpt).  "The
*repeated* accessor returns a possibly-empty ordered sequence", "or an
empty sequence if absent": look the name up in the descriptor's argument
list and return its repeated integer values, or `[]` when absent. -/
def GetRepeatedArgInt (args : List Argument) (name : String) : List Int :=
  match args.find? (fun a => a.name == name) with
  | some a => a.ints
  | none => []

/-- `Operator<Context>::_MPICheck()`.  `withMPI` reflects the `WITH_MPI`
compile flag: compiled out, the gate returns `true` unconditionally.
Compiled in, it reads `GetRepeatedArg<int>("mpi_rank")`; an empty list
passes, otherwise the current process rank must occur in the list. -/
def Op.MPICheck (withMPI : Bool) (curRank : Int) (args : List Argument) : Bool :=
  if !withMPI then true
  else
    let allow_ranks := GetRepeatedArgInt args "mpi_rank"
    if allow_ranks.isEmpty then true
    else allow_ranks.contains curRank

/-- The second conjunct of the constructor's gate:
`OutputSize() == 1 && output(0)->name() == "ignore"` (the conjunction
short-circuits, so `output(0)` is only read when there is one output). -/
def singleIgnoreOutput (outputs : List Tensor) : Bool :=
  match outputs with
  | [t] => t.name == "ignore"
  | _ => false

/-- The `allow_run_` flag computed in the `Operator<Context>` constructor:
`allow_run_ = true; allow_run_ &= _MPICheck();
allow_run_ &= !(OutputSize() == 1 && output(0)->name() == "ignore")`. -/
def allowRunInit (withMPI : Bool) (curRank : Int) (args : List Argument)
    (outputs : List Tensor) : Bool :=
  (true && Op.MPICheck withMPI curRank args) && !(singleIgnoreOutput outputs)

/-- `Operator<Context>::MemorySwitch()`: for every input, then every
output, whose name is not `"ignore"`, request the tensor to migrate
(`SwitchToDevice`).  The loops traverse `inputs_` and `outputs_` in index
order, so the trace is the two filtered name lists in order. -/
def Op.MemorySwitch (op : Op) : List Event :=
  (op.inputs.filter (fun t => t.name != "ignore")).map
      (fun t => Event.tensorSwitch t.name)
    ++ (op.outputs.filter (fun t => t.name != "ignore")).map
      (fun t => Event.tensorSwitch t.name)

/-- `Operator<Context>::Run()` as an event trace, with the subclass kernel
`RunOnDevice` allowed to abort: `kernelCompletes = false` models
`RunOnDevice` raising a fatal condition (a failed CHECK terminates the
process), after which none of the remaining statements of `Run()` execute.
When `allow_run_` is false the body returns immediately. -/
def Op.RunWithKernel (op : Op) (kernelCompletes : Bool) : List Event :=
  if !op.allow_run then []
  else
    let pre := [Event.switchToDevice]
      ++ (if !op.debug_mode then [Event.shareBeforeRun] else [])
      ++ op.MemorySwitch
      ++ [Event.runOnDevice]
    if kernelCompletes then
      pre ++ (if !op.debug_mode then [Event.clearAfterRun] else [])
          ++ [Event.finishDeviceCompution]
    else pre

/-- `Operator<Context>::Run()` on the normal path (the kernel returns). -/
def Op.Run (op : Op) : List Event :=
  op.RunWithKernel true

/-- C1. With `allow_run` true, `Run()` performs, in strict order: device
context activation, `ShareBeforeRun` (only outside debug mode),
`MemorySwitch`, `RunOnDevice`, `ClearAfterRun` (only outside debug mode),
`FinishDeviceCompution`; with `allow_run` false it performs nothing. -/
theorem run_orchestration_order (op : Op) :
    (op.allow_run = true →
      op.Run = [Event.switchToDevice]
        ++ (if op.debug_mode then [] else [Event.shareBeforeRun])
        ++ op.MemorySwitch
        ++ [Event.runOnDevice]
        ++ (if op.debug_mode then [] else [Event.clearAfterRun])
        ++ [Event.finishDeviceCompution]) ∧
    (op.allow_run = false → op.Run = []) := by
  constructor
  · intro h
    simp [Op.Run, Op.RunWithKernel, h]
    cases op.debug_mode <;> simp
  · intro h
    simp [Op.Run, Op.RunWithKernel, h]

/-- Witness for C1 on a concrete non-debug operator with inputs
`a, b` and output `c`: the full six-step trace, and the disabled
variant's empty trace. -/
theorem run_orchestration_order_witness :
    (opAdd.allow_run = true ∧
      opAdd.Run = [Event.switchToDevice]
        ++ (if opAdd.debug_mode then [] else [Event.shareBeforeRun])
        ++ opAdd.MemorySwitch
        ++ [Event.runOnDevice]
        ++ (if opAdd.debug_mode then [] else [Event.clearAfterRun])
        ++ [Event.finishDeviceCompution]) ∧
    ({ opAdd with allow_run := false }.allow_run = false ∧
      { opAdd with allow_run := false }.Run = []) :=
  ⟨⟨by decide, (run_orchestration_order opAdd).1 (by decide)⟩,
   ⟨by decide, (run_orchestration_order { opAdd with allow_run := false }).2
      (by decide)⟩⟩

/-- C3. The rank gate: always true when MPI is compiled out; when compiled
in, true when `"mpi_rank"` is absent or empty (the accessor returns `[]`
for an absent name), true when the current rank occurs in the list, and
false otherwise. -/
theorem mpi_rank_gate (withMPI : Bool) (curRank : Int) (args : List Argument) :
    (withMPI = false → Op.MPICheck withMPI curRank args = true) ∧
    (withMPI = true →
      (GetRepeatedArgInt args "mpi_rank" = [] →
        Op.MPICheck withMPI curRank args = true) ∧
      (curRank ∈ GetRepeatedArgInt args "mpi_rank" →
        Op.MPICheck withMPI curRank args = true) ∧
      (GetRepeatedArgInt args "mpi_rank" ≠ [] →
        curRank ∉ GetRepeatedArgInt args "mpi_rank" →
        Op.MPICheck withMPI curRank args = false)) := by
  refine ⟨fun h => by simp [Op.MPICheck, h], fun h => ⟨?_, ?_, ?_⟩⟩
  · intro he
    simp [Op.MPICheck, h, he]
  · intro hm
    have hne : GetRepeatedArgInt args "mpi_rank" ≠ [] := by
      intro he; rw [he] at hm; exact absurd hm (List.not_mem_nil curRank)
    simp [Op.MPICheck, h, List.isEmpty_iff, hne]
    exact hm
  · intro hne hnm
    simp [Op.MPICheck, h, List.isEmpty_iff, hne]
    exact hnm

/-- Witness for C3 at concrete data: with MPI compiled in and
`"mpi_rank" = [0, 2]`, rank 2 passes the gate and rank 1 fails it. -/
theorem mpi_rank_gate_witness :
    ((2 : Int) ∈ GetRepeatedArgInt [⟨"mpi_rank", [0, 2]⟩] "mpi_rank" ∧
      Op.MPICheck true 2 [⟨"mpi_rank", [0, 2]⟩] = true) ∧
    (GetRepeatedArgInt [⟨"mpi_rank", [0, 2]⟩] "mpi_rank" ≠ [] ∧
      (1 : Int) ∉ GetRepeatedArgInt [⟨"mpi_rank", [0, 2]⟩] "mpi_rank" ∧
      Op.MPICheck true 1 [⟨"mpi_rank", [0, 2]⟩] = false) :=
  ⟨⟨by decide, ((mpi_rank_gate true 2 [⟨"mpi_rank", [0, 2]⟩]).2 rfl).2.1
      (by decide)⟩,
   ⟨by decide, by decide, ((mpi_rank_gate true 1 [⟨"mpi_rank", [0, 2]⟩]).2
      rfl).2.2 (by decide) (by decide)⟩⟩

/-- C9. A `tensorSwitch` request appears in the `Run()` trace exactly for
the input and output tensors whose name is not `"ignore"`; in particular a
tensor named `"ignore"` is never asked to migrate by any `Run()`
invocation. -/
theorem memory_switch_skips_ignore (op : Op) (n : String) :
    Event.tensorSwitch n ∈ op.Run ↔
      op.allow_run = true ∧ n ≠ "ignore" ∧
        ∃ t, (t ∈ op.inputs ∨ t ∈ op.outputs) ∧ t.name = n := by
  cases hru : op.allow_run with
  | false =>
    simp [Op.Run, Op.RunWithKernel, hru]
  | true =>
    cases hdm : op.debug_mode with
    | false =>
      simp [Op.Run, Op.RunWithKernel, Op.MemorySwitch, hru, hdm]
      constructor
      · rintro (⟨t, ⟨ht, hne⟩, rfl⟩ | ⟨t, ⟨ht, hne⟩, rfl⟩)
        · exact ⟨hne, t, Or.inl ht, rfl⟩
        · exact ⟨hne, t, Or.inr ht, rfl⟩
      · rintro ⟨hne, t, ht | ht, rfl⟩
        · exact Or.inl ⟨t, ⟨ht, hne⟩, rfl⟩
        · exact Or.inr ⟨t, ⟨ht, hne⟩, rfl⟩
    | true =>
      simp [Op.Run, Op.RunWithKernel, Op.MemorySwitch, hru, hdm]
      constructor
      · rintro (⟨t, ⟨ht, hne⟩, rfl⟩ | ⟨t, ⟨ht, hne⟩, rfl⟩)
        · exact ⟨hne, t, Or.inl ht, rfl⟩
        · exact ⟨hne, t, Or.inr ht, rfl⟩
      · rintro ⟨hne, t, ht | ht, rfl⟩
        · exact Or.inl ⟨t, ⟨ht, hne⟩, rfl⟩
        · exact Or.inr ⟨t, ⟨ht, hne⟩, rfl⟩

/-- Witness for C9 at concrete data: an operator whose second input is
named `"ignore"`; input `"a"` is switched, `"ignore"` is not. -/
theorem memory_switch_skips_ignore_witness :
    (Event.tensorSwitch "a" ∈
      ({ debug_mode := false, inputs := [⟨"a", 0, [], []⟩, ⟨"ignore", 0, [], []⟩],
         outputs := [⟨"c", 0, [], []⟩], allow_run := true } : Op).Run) ∧
    ¬ (Event.tensorSwitch "ignore" ∈
      ({ debug_mode := false, inputs := [⟨"a", 0, [], []⟩, ⟨"ignore", 0, [], []⟩],
         outputs := [⟨"c", 0, [], []⟩], allow_run := true } : Op).Run) :=
  ⟨(memory_switch_skips_ignore _ "a").mpr
      ⟨rfl, by decide, ⟨"a", 0, [], []⟩, Or.inl (by simp), rfl⟩,
   fun h => by
    have := ((memory_switch_skips_ignore _ "ignore").mp h).2.1
    exact this rfl⟩

lemma count_finish_map_tensorSwitch (l : List Tensor) :
    ((l.map fun t => Event.tensorSwitch t.name).count
      Event.finishDeviceCompution) = 0 := by
  rw [List.count_eq_zero]
  simp

/-- C5 counterexample. The claim asserts `FinishDeviceCompution` is called
exactly once even when `RunOnDevice` raises a fatal condition.  On the
concrete permitted operator `opAdd`, a fatal `RunOnDevice` terminates
`Run()` before the barrier: the trace contains zero
`finishDeviceCompution` events, not one. -/
theorem finish_not_called_on_fatal_kernel :
    opAdd.allow_run = true ∧
    ¬ ((opAdd.RunWithKernel false).count Event.finishDeviceCompution = 1) := by
  decide

/-- C5 amended. On every permitted invocation, `FinishDeviceCompution` is
called exactly once when `RunOnDevice` completes normally, and zero times
when `RunOnDevice` raises a fatal condition (`Run()` has no scoped-release
guard, so a fatal kernel aborts before the barrier). -/
theorem finish_sync_iff_kernel_completes (op : Op) :
    op.allow_run = true →
      (op.RunWithKernel true).count Event.finishDeviceCompution = 1 ∧
      (op.RunWithKernel false).count Event.finishDeviceCompution = 0 := by
  intro h
  unfold Op.RunWithKernel Op.MemorySwitch
  rw [h]
  cases op.debug_mode <;>
    simp [List.count_append, count_finish_map_tensorSwitch]

/-- Witness for the amended C5 at the concrete operator `opAdd`. -/
theorem finish_sync_iff_kernel_completes_witness :
    opAdd.allow_run = true ∧
    ((opAdd.RunWithKernel true).count Event.finishDeviceCompution = 1 ∧
     (opAdd.RunWithKernel false).count Event.finishDeviceCompution = 0) :=
  ⟨by decide, finish_sync_iff_kernel_completes opAdd (by decide)⟩

/-- Modelled from the spec: a filler descriptor, "a named initializer
attached to an empty tensor" (filler construction lives outside this
excerpt).  Its contract is the element data it produces for a given
element count. -/
structure FillerDesc where
  fill : Nat → List Int

/-- Modelled from the spec: the workspace, the "process-scoped registry
owning tensors and fillers" (workspace implementation outside this
excerpt).  Tensors are keyed by their own name; fillers by name. -/
structure Workspace where
  tensors : List Tensor
  fillers : List (String × FillerDesc)

/-- Modelled from the spec: `Workspace::GetFiller(name)` "returns a filler
descriptor or nothing". -/
def Workspace.GetFiller (ws : Workspace) (name : String) : Option FillerDesc :=
  match ws.fillers.find? (fun p => p.1 == name) with
  | some p => some p.2
  | none => none

/-- Modelled from the spec: `Workspace::CreateTensor(name)` is an
"idempotent get-or-create": return the tensor already stored under `name`,
or install and return a fresh empty tensor (`count == 0`) with that name. -/
def Workspace.CreateTensor (ws : Workspace) (name : String) :
    Workspace × Tensor :=
  match ws.tensors.find? (fun t => t.name == name) with
  | some t => (ws, t)
  | none =>
    let t : Tensor := { name := name, count := 0, dims := [], data := [] }
    ({ ws with tensors := ws.tensors ++ [t] }, t)

/-- The element-count product `TENSOR_FILL` computes over the requested
shape: `TIndex count = 1; for (i...) count *= shape[i]`. -/
def shapeCount (shape : List Nat) : Nat :=
  shape.foldl (fun acc d => acc * d) 1

/-- Modelled from the spec: `Tensor::Reshape(shape)` (tensor implementation
outside this excerpt) sets the tensor's shape, making `count` the product
of the dimensions; it moves no data. -/
def Tensor.Reshape (t : Tensor) (shape : List Nat) : Tensor :=
  { t with dims := shape, count := shapeCount shape }

/-- The fatal outcomes of the `TENSOR_FILL` macro's CHECKs: a missing
filler for an empty tensor, and a requested-size / existing-count mismatch
for a non-empty one (the diagnostic names the tensor, the requested size
and the actual size). -/
inductive FillError where
  | missingFiller (tname : String)
  | shapeMismatch (tname : String) (requested : Nat) (actual : Nat)
deriving DecidableEq

/-- The `TENSOR_FILL(tensor, shape)` macro.  Empty tensor
(`count() == 0`): CHECK a filler is registered under the tensor's name
(else fatal), `Reshape(shape)`, construct the filler and fill.  Non-empty
tensor: compute the product of `shape`, `CHECK_EQ` it against `count()`
(else fatal), then `Reshape(shape)`. -/
def TENSOR_FILL (ws : Workspace) (tensor : Tensor) (shape : List Nat) :
    Except FillError Tensor :=
  if tensor.count == 0 then
    match ws.GetFiller tensor.name with
    | none => .error (.missingFiller tensor.name)
    | some filler =>
      let t := tensor.Reshape shape
      .ok { t with data := filler.fill t.count }
  else
    let count := shapeCount shape
    if count == tensor.count then .ok (tensor.Reshape shape)
    else .error (.shapeMismatch tensor.name count tensor.count)

/-- C6. For a non-empty tensor, `TENSOR_FILL` is fatal when the requested
shape's element product differs from the tensor's count, with a diagnostic
carrying the tensor's name, the requested size and the actual size; when
the product matches, it only reshapes: same name, same data, same count. -/
theorem tensor_fill_nonempty (ws : Workspace) (tensor : Tensor)
    (shape : List Nat) (h : tensor.count ≠ 0) :
    (shapeCount shape ≠ tensor.count →
      TENSOR_FILL ws tensor shape =
        .error (.shapeMismatch tensor.name (shapeCount shape) tensor.count)) ∧
    (shapeCount shape = tensor.count →
      TENSOR_FILL ws tensor shape =
        .ok { name := tensor.name, count := tensor.count, dims := shape,
              data := tensor.data }) := by
  constructor
  · intro hne
    simp [TENSOR_FILL, h, hne]
  · intro he
    simp [TENSOR_FILL, h, he, Tensor.Reshape]

/-- Witness for C6: a tensor of count 6; requesting shape `[4]` fails with
the `4` / `6` diagnostic, requesting `[2, 3]` reshapes and keeps the data. -/
theorem tensor_fill_nonempty_witness :
    ((⟨"w", 6, [6], [1, 2, 3, 4, 5, 6]⟩ : Tensor).count ≠ 0 ∧
      shapeCount [4] ≠ 6 ∧
      TENSOR_FILL ⟨[], []⟩ ⟨"w", 6, [6], [1, 2, 3, 4, 5, 6]⟩ [4] =
        .error (.shapeMismatch "w" 4 6)) ∧
    (shapeCount [2, 3] = 6 ∧
      TENSOR_FILL ⟨[], []⟩ ⟨"w", 6, [6], [1, 2, 3, 4, 5, 6]⟩ [2, 3] =
        .ok ⟨"w", 6, [2, 3], [1, 2, 3, 4, 5, 6]⟩) :=
  ⟨⟨by decide, by decide,
    (tensor_fill_nonempty ⟨[], []⟩ ⟨"w", 6, [6], [1, 2, 3, 4, 5, 6]⟩ [4]
      (by decide)).1 (by decide)⟩,
   ⟨by decide,
    (tensor_fill_nonempty ⟨[], []⟩ ⟨"w", 6, [6], [1, 2, 3, 4, 5, 6]⟩ [2, 3]
      (by decide)).2 (by decide)⟩⟩

/-- C7. For an empty tensor, `TENSOR_FILL` is fatal when no filler is
registered under the tensor's name; with a registered filler it reshapes
to the requested shape and populates from the filler, leaving the count
equal to the product of the requested shape. -/
theorem tensor_fill_empty (ws : Workspace) (tensor : Tensor)
    (shape : List Nat) (h : tensor.count = 0) :
    (ws.GetFiller tensor.name = none →
      TENSOR_FILL ws tensor shape = .error (.missingFiller tensor.name)) ∧
    (∀ filler, ws.GetFiller tensor.name = some filler →
      ∃ t, TENSOR_FILL ws tensor shape = .ok t ∧
        t.count = shapeCount shape ∧ t.dims = shape ∧
        t.data = filler.fill (shapeCount shape) ∧ t.name = tensor.name) := by
  constructor
  · intro hf
    simp [TENSOR_FILL, h, hf]
  · intro filler hf
    refine ⟨{ name := tensor.name, count := shapeCount shape, dims := shape,
              data := filler.fill (shapeCount shape) }, ?_, rfl, rfl, rfl, rfl⟩
    simp [TENSOR_FILL, h, hf, Tensor.Reshape]

/-- Witness for C7: an empty tensor `"w"` with a constant-5 filler and
requested shape `[2, 3]` fills to count 6 with six fives; without any
filler the fill is fatal. -/
theorem tensor_fill_empty_witness :
    ((⟨"w", 0, [], []⟩ : Tensor).count = 0 ∧
      Workspace.GetFiller ⟨[], []⟩ "w" = none ∧
      TENSOR_FILL ⟨[], []⟩ ⟨"w", 0, [], []⟩ [2, 3] =
        .error (.missingFiller "w")) ∧
    (Workspace.GetFiller ⟨[], [("w", ⟨fun n => List.replicate n 5⟩)]⟩ "w" =
        some ⟨fun n => List.replicate n 5⟩ ∧
      ∃ t, TENSOR_FILL ⟨[], [("w", ⟨fun n => List.replicate n 5⟩)]⟩
          ⟨"w", 0, [], []⟩ [2, 3] = .ok t ∧
        t.count = shapeCount [2, 3] ∧ t.dims = [2, 3] ∧
        t.data = List.replicate (shapeCount [2, 3]) 5 ∧ t.name = "w") :=
  ⟨⟨by decide, rfl,
    (tensor_fill_empty ⟨[], []⟩ ⟨"w", 0, [], []⟩ [2, 3] (by decide)).1 rfl⟩,
   ⟨rfl,
    (tensor_fill_empty ⟨[], [("w", ⟨fun n => List.replicate n 5⟩)]⟩
      ⟨"w", 0, [], []⟩ [2, 3] (by decide)).2 ⟨fun n => List.replicate n 5⟩ rfl⟩⟩

/-- The tensor the workspace stores under `"_t_multiplier"`, if any. -/
def multiplierTensor (ws : Workspace) : Option Tensor :=
  ws.tensors.find? (fun t => t.name == "_t_multiplier")

/-- The element count of the cached multiplier tensor (0 when absent, as a
fresh tensor starts empty). -/
def multiplierCount (ws : Workspace) : Nat :=
  match multiplierTensor ws with
  | some t => t.count
  | none => 0

/-- Writing back through the borrowed tensor pointer: `ptr_tensor` points
into the workspace, so `Reshape` / `math::Set` on it update the stored
tensor with that name. -/
def Workspace.setTensor (ws : Workspace) (t' : Tensor) : Workspace :=
  { ws with tensors := ws.tensors.map (fun t => if t.name == t'.name then t' else t) }

/-- The `INIT_MULTIPLIER(ptr_tensor, size)` macro:
`ptr_tensor = ws()->CreateTensor("_t_multiplier")`; when
`size > ptr_tensor->count()`, `Reshape(vector<TIndex>(1, size))` (the
one-element shape `[size]`) and `math::Set(size, 1, ...)` fill the tensor
with ones; otherwise the cached tensor is reused as-is. -/
def INIT_MULTIPLIER (ws : Workspace) (size : Nat) : Workspace :=
  let got := ws.CreateTensor "_t_multiplier"
  let ws1 := got.1
  let t := got.2
  if size > t.count then
    ws1.setTensor { t.Reshape [size] with data := List.replicate size 1 }
  else ws1

lemma createTensor_name (ws : Workspace) (name : String) :
    (ws.CreateTensor name).2.name = name := by
  unfold Workspace.CreateTensor
  cases hf : ws.tensors.find? (fun t => t.name == name) with
  | none => rfl
  | some t =>
    have := List.find?_some hf
    simpa using this

lemma createTensor_count (ws : Workspace) (name : String)
    (h : name = "_t_multiplier") :
    (ws.CreateTensor name).2.count = multiplierCount ws := by
  subst h
  unfold Workspace.CreateTensor multiplierCount multiplierTensor
  cases hf : ws.tensors.find? (fun t => t.name == "_t_multiplier") <;> simp [hf]

lemma find_append_singleton_of_none (l : List Tensor) (p : Tensor → Bool)
    (t : Tensor) (h : l.find? p = none) :
    (l ++ [t]).find? p = if p t then some t else none := by
  induction l with
  | nil =>
    simp only [List.nil_append]
    by_cases hp : p t
    · simp [List.find?_cons_of_pos _ hp, hp]
    · simp [List.find?_cons_of_neg _ hp, hp, List.find?]
  | cons a l ih =>
    have ha : p a = false := by
      by_contra hc
      rw [List.find?_cons_of_pos _ (by simpa using hc)] at h
      exact Option.noConfusion h
    rw [List.find?_cons_of_neg _ (by simp [ha])] at h
    simpa [List.find?_cons_of_neg _ (by simp [ha] : ¬ p a = true)] using ih h

lemma multiplierTensor_createTensor (ws : Workspace) :
    multiplierTensor (ws.CreateTensor "_t_multiplier").1 =
      some (ws.CreateTensor "_t_multiplier").2 := by
  unfold Workspace.CreateTensor multiplierTensor
  cases hf : ws.tensors.find? (fun t => t.name == "_t_multiplier") with
  | some t => simpa using hf
  | none =>
    simp only []
    rw [find_append_singleton_of_none _ _ _ hf]
    simp

lemma find_map_set (l : List Tensor) (t' : Tensor)
    (h : t'.name = "_t_multiplier") :
    (l.map (fun t => if t.name == t'.name then t' else t)).find?
        (fun t => t.name == "_t_multiplier") =
      match l.find? (fun t => t.name == "_t_multiplier") with
      | some _ => some t'
      | none => none := by
  induction l with
  | nil => rfl
  | cons a l ih =>
    by_cases ha : a.name = "_t_multiplier"
    · have h1 : (a.name == t'.name) = true := by simp [ha, h]
      simp only [List.map_cons, h1, if_true]
      rw [List.find?_cons_of_pos _ (by simp [h]),
        List.find?_cons_of_pos _ (by simp [ha])]
    · have h1 : (a.name == t'.name) = false := by simp [ha, h]
      simp only [List.map_cons, h1, if_false]
      rw [List.find?_cons_of_neg _ (by simp [ha]),
        List.find?_cons_of_neg _ (by simp [ha])]
      exact ih

lemma multiplierTensor_setTensor (ws : Workspace) (t' : Tensor)
    (h : t'.name = "_t_multiplier")
    (hp : (multiplierTensor ws).isSome = true) :
    multiplierTensor (ws.setTensor t') = some t' := by
  unfold multiplierTensor Workspace.setTensor at *
  rw [find_map_set _ _ h]
  cases hf : ws.tensors.find? (fun t => t.name == "_t_multiplier") with
  | some t => rfl
  | none => rw [hf] at hp; simp at hp

lemma init_multiplier_spec (ws : Workspace) (size : Nat) :
    multiplierTensor (INIT_MULTIPLIER ws size) =
      some (if size > multiplierCount ws
        then { name := "_t_multiplier", count := size, dims := [size],
               data := List.replicate size 1 }
        else (ws.CreateTensor "_t_multiplier").2) := by
  unfold INIT_MULTIPLIER
  simp only [createTensor_count ws _ rfl]
  by_cases hgt : size > multiplierCount ws
  · rw [if_pos hgt, if_pos hgt]
    rw [multiplierTensor_setTensor]
    · congr 1
      have hn := createTensor_name ws "_t_multiplier"
      have hc := createTensor_count ws "_t_multiplier" rfl
      simp [Tensor.Reshape, shapeCount, hn]
    · simp [Tensor.Reshape, createTensor_name ws "_t_multiplier"]
    · rw [multiplierTensor_createTensor]
      rfl
  · rw [if_neg hgt, if_neg hgt]
    exact multiplierTensor_createTensor ws

lemma multiplierCount_eq (ws : Workspace) (t : Tensor)
    (h : multiplierTensor ws = some t) : multiplierCount ws = t.count := by
  unfold multiplierCount
  rw [h]

lemma multiplierCount_init (ws : Workspace) (size : Nat) :
    multiplierCount (INIT_MULTIPLIER ws size) =
      max (multiplierCount ws) size := by
  have h := init_multiplier_spec ws size
  by_cases hgt : size > multiplierCount ws
  · rw [if_pos hgt] at h
    rw [multiplierCount_eq _ _ h]
    show size = max (multiplierCount ws) size
    omega
  · rw [if_neg hgt] at h
    rw [multiplierCount_eq _ _ h, createTensor_count ws _ rfl]
    omega

/-- C8. `INIT_MULTIPLIER` get-or-creates `"_t_multiplier"`; a request
larger than the current count reshapes to `[size]` and fills with ones; a
request no larger leaves the cached tensor as-is; the count never
decreases, and after requests of `n` then `m ≤ n` (starting from a cache
of at most `n`) the count is still `n`. -/
theorem init_multiplier_cache (ws : Workspace) (size n m : Nat) :
    (multiplierCount ws < size →
      multiplierTensor (INIT_MULTIPLIER ws size) =
        some { name := "_t_multiplier", count := size, dims := [size],
               data := List.replicate size 1 }) ∧
    (∀ t, multiplierTensor ws = some t → size ≤ t.count →
      multiplierTensor (INIT_MULTIPLIER ws size) = some t) ∧
    multiplierCount ws ≤ multiplierCount (INIT_MULTIPLIER ws size) ∧
    (m ≤ n → multiplierCount ws ≤ n →
      multiplierCount (INIT_MULTIPLIER (INIT_MULTIPLIER ws n) m) = n) := by
  refine ⟨?_, ?_, ?_, ?_⟩
  · intro hlt
    rw [init_multiplier_spec, if_pos hlt]
  · intro t ht hle
    have hc : multiplierCount ws = t.count := multiplierCount_eq ws t ht
    rw [init_multiplier_spec, if_neg (by omega)]
    unfold multiplierTensor at ht
    simp [Workspace.CreateTensor, ht]
  · rw [multiplierCount_init]
    omega
  · intro h1 h2
    rw [multiplierCount_init, multiplierCount_init]
    omega

/-- Witness for C8: from an empty workspace, `INIT_MULTIPLIER 3` produces
count 3 with three ones, and a following `INIT_MULTIPLIER 2` leaves the
count at 3. -/
theorem init_multiplier_cache_witness :
    (multiplierCount ⟨[], []⟩ < 3 ∧
      multiplierTensor (INIT_MULTIPLIER ⟨[], []⟩ 3) =
        some { name := "_t_multiplier", count := 3, dims := [3],
               data := List.replicate 3 1 }) ∧
    ((2 : Nat) ≤ 3 ∧ multiplierCount ⟨[], []⟩ ≤ 3 ∧
      multiplierCount (INIT_MULTIPLIER (INIT_MULTIPLIER ⟨[], []⟩ 3) 2) = 3) :=
  ⟨⟨by decide, (init_multiplier_cache ⟨[], []⟩ 3 3 2).1 (by decide)⟩,
   ⟨by decide, by decide,
    (init_multiplier_cache ⟨[], []⟩ 3 3 2).2.2.2 (by decide) (by decide)⟩⟩

/-- Modelled from the spec: output-name resolution in the `OperatorBase`
constructor (implemented outside this excerpt): "Resolve each output name:
`workspace.CreateTensor(name)` (get-or-create), yielding a handle." -/
def resolveOutputs (ws : Workspace) (names : List String) :
    Workspace × List Tensor :=
  match names with
  | [] => (ws, [])
  | n :: rest =>
    let got := ws.CreateTensor n
    let rest' := resolveOutputs got.1 rest
    (rest'.1, got.2 :: rest'.2)

/-- C2. `allow_run` computed at construction is true iff the MPI rank gate
passes and the operator does not have exactly one output named
`"ignore"`; an operator whose output list is `["ignore"]` resolves to a
single output tensor named `"ignore"`, gets `allow_run = false`, and its
`Run()` is a no-op. -/
theorem allow_run_construction (withMPI : Bool) (curRank : Int)
    (args : List Argument) (outs : List Tensor) (ws : Workspace) (op : Op) :
    (allowRunInit withMPI curRank args outs = true ↔
      (Op.MPICheck withMPI curRank args = true ∧
        ¬ ∃ t, outs = [t] ∧ t.name = "ignore")) ∧
    ((resolveOutputs ws ["ignore"]).2.map Tensor.name = ["ignore"] ∧
      allowRunInit withMPI curRank args (resolveOutputs ws ["ignore"]).2 =
        false) ∧
    (op.allow_run = false → op.Run = []) := by
  refine ⟨?_, ?_, ?_⟩
  · unfold allowRunInit
    simp only [Bool.true_and, Bool.and_eq_true, Bool.not_eq_true']
    constructor
    · rintro ⟨h1, h2⟩
      refine ⟨h1, ?_⟩
      rintro ⟨t, rfl, hn⟩
      simp [singleIgnoreOutput, hn] at h2
    · rintro ⟨h1, h2⟩
      refine ⟨h1, ?_⟩
      cases outs with
      | nil => rfl
      | cons a l =>
        cases l with
        | nil =>
          simp [singleIgnoreOutput]
          intro hc
          exact h2 ⟨a, rfl, hc⟩
        | cons b l2 => rfl
  · have hn := createTensor_name ws "ignore"
    constructor
    · simp [resolveOutputs, hn]
    · simp [resolveOutputs, allowRunInit, singleIgnoreOutput, hn]
  · intro h
    simp [Op.Run, Op.RunWithKernel, h]

/-- Witness for C2 at concrete data: `["ignore"]` resolved against the
empty workspace yields `allow_run = false`, and a disabled operator's
`Run()` trace is empty. -/
theorem allow_run_construction_witness :
    (allowRunInit true 0 []
        (resolveOutputs ⟨[], []⟩ ["ignore"]).2 = false) ∧
    ({ opAdd with allow_run := false }.allow_run = false ∧
      { opAdd with allow_run := false }.Run = []) :=
  ⟨(allow_run_construction true 0 [] [] ⟨[], []⟩ opAdd).2.1.2,
   ⟨by decide,
    (allow_run_construction true 0 [] [] ⟨[], []⟩
      { opAdd with allow_run := false }).2.2 (by decide)⟩⟩

/-- `OperatorBase::arg(name)`: `return *(args_[name]);` over
`args_ : Map<std::string, const Argument*>`.  `std::map::operator[]` on an
absent key value-initializes the mapped pointer to null and returns a
reference to it, so the surrounding dereference reads a null pointer —
modelled as pointers being `Option Argument` (`none` = null) and the
dereference result being the stored option.  The result pairs the
dereferenced value with the map after the lookup. -/
def OperatorBase.arg (args : List (String × Option Argument))
    (name : String) : Option Argument × List (String × Option Argument) :=
  match args.find? (fun p => p.1 == name) with
  | some p => (p.2, args)
  | none => (none, args ++ [(name, none)])

/-- C10. `arg(name)` does no presence check: when an entry with a non-null
pointer is stored under `name` it returns that `Argument` and leaves the
map unchanged; when `name` is absent it inserts a null entry and the
dereference yields no `Argument` (null-pointer dereference, no
diagnostic). -/
theorem arg_no_presence_check (args : List (String × Option Argument))
    (name : String) :
    (∀ a, args.find? (fun p => p.1 == name) = some (name, some a) →
      OperatorBase.arg args name = (some a, args)) ∧
    (args.find? (fun p => p.1 == name) = none →
      OperatorBase.arg args name = (none, args ++ [(name, none)])) := by
  constructor
  · intro a h
    simp [OperatorBase.arg, h]
  · intro h
    simp [OperatorBase.arg, h]

/-- Witness for C10 at a concrete map holding `"axis"`: looking up
`"axis"` returns its argument with the map unchanged; looking up the
absent `"beta"` yields no argument and inserts a null entry. -/
theorem arg_no_presence_check_witness :
    ([("axis", some (⟨"axis", [1]⟩ : Argument))].find?
        (fun p => p.1 == "axis") = some ("axis", some ⟨"axis", [1]⟩) ∧
      OperatorBase.arg [("axis", some ⟨"axis", [1]⟩)] "axis" =
        (some ⟨"axis", [1]⟩, [("axis", some ⟨"axis", [1]⟩)])) ∧
    ([("axis", some (⟨"axis", [1]⟩ : Argument))].find?
        (fun p => p.1 == "beta") = none ∧
      OperatorBase.arg [("axis", some ⟨"axis", [1]⟩)] "beta" =
        (none, [("axis", some ⟨"axis", [1]⟩), ("beta", none)])) :=
  ⟨⟨by decide, (arg_no_presence_check _ "axis").1 ⟨"axis", [1]⟩ (by decide)⟩,
   ⟨by decide, (arg_no_presence_check _ "beta").2 (by decide)⟩⟩
